import Mathlib

/-
Verification of the RAG-PDF pipeline repository against its specification.

The Python sources are shallowly embedded as pure Lean functions:
  - `src/src/vector_store.py`  → `VectorStore` state and its operations,
    with the external FAISS/Chroma engines modelled as an abstract search
    oracle parameter and the on-disk persisted state as `DiskState`;
  - `src/src/pdf_processor.py` → `PDFProcessor` and `create_documents`,
    with the external langchain text splitter's constructor validation
    modelled in `textSplitterInit`;
  - `src/src/rag_chain.py`     → `query` / `chat_with_history`, with the
    hosted LLM modelled as a function from prompt to answer;
  - `src/api.py`               → `upload_pdf` request validation.
Exceptions become `Except String` values carrying the exact wrapped
messages the Python code produces.
-/

namespace RagPdf

/-- Metadata values occurring in document metadata dicts (strings and ints). -/
inductive MetaVal
  | str (v : String)
  | nat (v : Nat)
deriving DecidableEq

/-- Embeds langchain `Document`: page content plus a metadata dict,
modelled as an association list. -/
structure Document where
  page_content : String
  metadata : List (String × MetaVal) := []
deriving DecidableEq

/-- Embeds the mutable state of `VectorStore` (src/src/vector_store.py):
the backend tag string and the optional in-memory store, which we model by
the list of stored documents (FAISS `index.ntotal` and Chroma
`get()['ids']` both report their number). -/
structure VectorStore where
  store_type : String
  vector_store : Option (List Document)
deriving DecidableEq

/-- Models the durable storage the two backends persist to: the optional
FAISS snapshot under `persist_directory/faiss_index`, and the Chroma
collection inside `persist_directory` (the directory itself always exists,
`__init__` creates it with `os.makedirs`). -/
structure DiskState where
  faiss_index : Option (List Document)
  chroma_coll : List Document
deriving DecidableEq

/-- Embeds `VectorStore.similarity_search` (lines 78-107). The external
engine's search call (line 104) is the `search` parameter. A `None` store
raises `ValueError("Vector store not initialized")`, which the method's
catch-all re-raises as the wrapped message below. The `filter_dict`
branch is omitted: both branches delegate identically to the engine. -/
def similarity_search (search : List Document → String → Nat → List Document)
    (st : VectorStore) (query : String) (k : Nat) : Except String (List Document) :=
  match st.vector_store with
  | none => .error ("Error performing similarity search: Vector store not initialized")
  | some docs => .ok (search docs query k)

/-- Embeds `VectorStore.similarity_search_with_score` (lines 109-129);
the engine's scored search is the `searchWS` parameter, scores modelled
as rationals. -/
def similarity_search_with_score
    (searchWS : List Document → String → Nat → List (Document × ℚ))
    (st : VectorStore) (query : String) (k : Nat) : Except String (List (Document × ℚ)) :=
  match st.vector_store with
  | none => .error ("Error performing similarity search with score: Vector store not initialized")
  | some docs => .ok (searchWS docs query k)

/-- Embeds `VectorStore.save_vector_store` (lines 131-151): FAISS writes a
snapshot at the default path; Chroma persists its collection; any other
tag falls through without writing. -/
def save_vector_store (st : VectorStore) (fs : DiskState) : Except String DiskState :=
  match st.vector_store with
  | none => .error ("Error saving vector store: Vector store not initialized")
  | some docs =>
    if st.store_type == "faiss" then .ok { fs with faiss_index := some docs }
    else if st.store_type == "chroma" then .ok { fs with chroma_coll := docs }
    else .ok fs

/-- Embeds `VectorStore.load_vector_store` (lines 153-176): FAISS loads the
snapshot only if one exists at the path (otherwise a silent no-op); Chroma
reattaches to the collection in `persist_directory`, which always exists. -/
def load_vector_store (st : VectorStore) (fs : DiskState) : VectorStore :=
  if st.store_type == "faiss" then
    match fs.faiss_index with
    | some l => { st with vector_store := some l }
    | none => st
  else if st.store_type == "chroma" then
    { st with vector_store := some fs.chroma_coll }
  else st

/-- Embeds `VectorStore.delete_vector_store` (lines 178-187): only when the
tag is `"chroma"` and a live store object is present (the `hasattr` check)
is the persisted collection deleted; in every case the in-memory reference
is dropped. The FAISS snapshot on disk is never touched. -/
def delete_vector_store (st : VectorStore) (fs : DiskState) : VectorStore × DiskState :=
  if st.store_type == "chroma" && st.vector_store.isSome then
    ({ st with vector_store := none }, { fs with chroma_coll := [] })
  else
    ({ st with vector_store := none }, fs)

/-- Embeds `VectorStore.get_document_count` (lines 189-208): `0` when no
store is held, else the backend's reported size, with a final `return 0`
for any other tag. -/
def get_document_count (st : VectorStore) : Nat :=
  match st.vector_store with
  | none => 0
  | some l =>
    if st.store_type == "faiss" then l.length
    else if st.store_type == "chroma" then l.length
    else 0

/- Concrete search oracles used by witnesses: they return stored entries,
as the real engines do. -/

def takeSearch : List Document → String → Nat → List Document :=
  fun l _ k => l.take k

def takeSearchWS : List Document → String → Nat → List (Document × ℚ) :=
  fun l _ k => (l.map (fun d => (d, 0))).take k

def doc0 : Document := ⟨("doc"), []⟩

def faissSt : VectorStore := ⟨("faiss"), some [doc0]⟩

def faissDisk : DiskState := ⟨some [doc0], []⟩

/-- Claim C1: a query against a vector index that holds zero entries
returns an empty result and no error, for any engine whose search only
returns stored entries (both real backends do). Covers
`similarity_search` and `similarity_search_with_score`. -/
theorem empty_index_search_ok
    (search : List Document → String → Nat → List Document)
    (searchWS : List Document → String → Nat → List (Document × ℚ))
    (hs : ∀ l q k d, d ∈ search l q k → d ∈ l)
    (hws : ∀ l q k p, p ∈ searchWS l q k → p.1 ∈ l)
    (st : VectorStore) (q : String) (k : Nat)
    (hst : st.vector_store = some []) :
    similarity_search search st q k = .ok [] ∧
    similarity_search_with_score searchWS st q k = .ok [] := by
  constructor
  · simp only [similarity_search, hst]
    have : search [] q k = [] := by
      apply List.eq_nil_iff_forall_not_mem.mpr
      intro d hd
      exact absurd (hs [] q k d hd) (List.not_mem_nil d)
    rw [this]
  · simp only [similarity_search_with_score, hst]
    have : searchWS [] q k = [] := by
      apply List.eq_nil_iff_forall_not_mem.mpr
      intro p hp
      exact absurd (hws [] q k p hp) (List.not_mem_nil p.1)
    rw [this]

/-- Witness for C1 at a concrete empty FAISS-tagged store. -/
theorem empty_index_search_ok_witness :
    similarity_search takeSearch ⟨("faiss"), some []⟩ ("apa itu ML") 4 = .ok [] ∧
    similarity_search_with_score takeSearchWS ⟨("faiss"), some []⟩ ("apa itu ML") 4 = .ok [] :=
  empty_index_search_ok takeSearch takeSearchWS
    (fun _ _ _ _ hd => List.mem_of_mem_take hd)
    (fun _ _ _ p hp => by
      obtain ⟨d, hd, rfl⟩ := List.mem_map.1 (List.mem_of_mem_take hp)
      exact hd)
    _ _ _ rfl

/-- Claim C4: querying a store whose index has never been created fails
with the not-initialized error (the `ValueError("Vector store not
initialized")` the spec's taxonomy names `NotInitializedError`, re-raised
wrapped by the method's catch-all). -/
theorem uninitialized_search_errors
    (search : List Document → String → Nat → List Document)
    (st : VectorStore) (q : String) (k : Nat)
    (hst : st.vector_store = none) :
    similarity_search search st q k =
      .error ("Error performing similarity search: Vector store not initialized") := by
  simp only [similarity_search, hst]

/-- Witness for C4 at a concrete never-created store. -/
theorem uninitialized_search_errors_witness :
    similarity_search takeSearch ⟨("faiss"), none⟩ ("apa itu ML") 4 =
      .error ("Error performing similarity search: Vector store not initialized") :=
  uninitialized_search_errors takeSearch _ _ _ rfl

/-- Claim C8: after `delete_vector_store` (the operation behind
`DELETE /documents`), the reported document count is `0`, for every prior
index state and disk state. -/
theorem clear_then_count_zero (st : VectorStore) (fs : DiskState) :
    get_document_count (delete_vector_store st fs).1 = 0 := by
  unfold delete_vector_store
  split <;> rfl

/-- Claim C9 counterexample: a FAISS store whose one-entry index was
previously persisted; clearing empties the live index, but loading from
the same location brings the entry back — the index does not stay empty,
so `clear` is not irreversible as claimed. -/
theorem clear_irreversible_counterexample :
    get_document_count (delete_vector_store faissSt faissDisk).1 = 0 ∧
    get_document_count
      (load_vector_store (delete_vector_store faissSt faissDisk).1
        (delete_vector_store faissSt faissDisk).2) = 1 := by
  constructor <;> rfl

/-- Claim C9 amended: for the FAISS variant, `clear` discards only the
in-memory index; the persisted snapshot survives, and a subsequent
restore from the same location recovers exactly the persisted entries. -/
theorem faiss_clear_then_load_recovers (st : VectorStore) (fs : DiskState)
    (l : List Document)
    (ht : st.store_type = "faiss") (hf : fs.faiss_index = some l) :
    get_document_count (delete_vector_store st fs).1 = 0 ∧
    (load_vector_store (delete_vector_store st fs).1
      (delete_vector_store st fs).2).vector_store = some l ∧
    get_document_count
      (load_vector_store (delete_vector_store st fs).1
        (delete_vector_store st fs).2) = l.length := by
  have hd : delete_vector_store st fs = ({ st with vector_store := none }, fs) := by
    unfold delete_vector_store
    rw [ht]
    rfl
  rw [hd]
  have hl : load_vector_store { st with vector_store := none } fs =
      { st with vector_store := some l } := by
    unfold load_vector_store
    rw [ht, hf]
    rfl
  rw [hl]
  refine ⟨rfl, rfl, ?_⟩
  unfold get_document_count
  rw [ht]
  rfl

/-- Witness for the amended C9 at the concrete persisted FAISS state. -/
theorem faiss_clear_then_load_recovers_witness :
    get_document_count (delete_vector_store faissSt faissDisk).1 = 0 ∧
    (load_vector_store (delete_vector_store faissSt faissDisk).1
      (delete_vector_store faissSt faissDisk).2).vector_store = some [doc0] ∧
    get_document_count
      (load_vector_store (delete_vector_store faissSt faissDisk).1
        (delete_vector_store faissSt faissDisk).2) = [doc0].length :=
  faiss_clear_then_load_recovers faissSt faissDisk [doc0] rfl rfl

/-- Models Python `str.lower` over the character list. -/
def pyLower (s : String) : String := String.mk (s.data.map Char.toLower)

/-- Models Python `str.endswith` over the character list. -/
def pyEndsWith (s post : String) : Bool := post.data.isSuffixOf s.data

/-- Models starlette `HTTPException.__str__`, which renders as
`"{status_code}: {detail}"`; this is the `str(e)` the API handler embeds
in its wrapped 500 detail. -/
def httpExceptionStr (status : Nat) (detail : String) : String :=
  toString status ++ ": " ++ detail

/-- Response body of a successful `POST /upload` (src/api.py lines 62-66,
166-171). -/
structure UploadResponse where
  message : String
  filename : String
  chunks : Nat
  size : Nat
deriving DecidableEq

/-- Outcome of the `/upload` handler: a response model or an
`HTTPException` with status code and detail. -/
inductive UploadResult
  | ok (r : UploadResponse)
  | err (status : Nat) (detail : String)
deriving DecidableEq

/-- Embeds the `upload_pdf` handler of src/api.py (lines 128-178). The
whole PDF-processing/indexing path after the filename check is the `proc`
parameter, returning chunk count and byte size or an error message. The
`HTTPException(400, "Only PDF files are allowed")` raised for a non-PDF
name sits inside the handler's `try`, and `fastapi.HTTPException` is a
subclass of `Exception`, so the blanket `except Exception` at line 177
catches it and re-raises it as a 500 with the wrapped detail. -/
def upload_pdf (filename : String)
    (proc : String → Except String (Nat × Nat)) : UploadResult :=
  if pyEndsWith (pyLower filename) (".pdf") = false then
    .err 500 ("Error processing file: " ++
      httpExceptionStr 400 ("Only PDF files are allowed"))
  else
    match proc filename with
    | .ok cs => .ok ⟨("File uploaded and processed successfully"), filename, cs.1, cs.2⟩
    | .error msg => .err 500 ("Error processing file: " ++ msg)

/-- Claim C2 (code bug): an upload whose filename does not end in `.pdf`
is rejected, but with status 500, not the 400 the handler tries to raise:
its own `except Exception` swallows the `HTTPException(400)` and re-wraps
it. -/
theorem upload_nonpdf_returns_500 (filename : String)
    (proc : String → Except String (Nat × Nat))
    (hnp : pyEndsWith (pyLower filename) (".pdf") = false) :
    upload_pdf filename proc =
      .err 500 ("Error processing file: " ++
        httpExceptionStr 400 ("Only PDF files are allowed")) := by
  simp only [upload_pdf, hnp]
  rfl

/-- Witness for C2 at the concrete failing filename `notes.txt` (the
processing stage is never reached; here it would succeed). -/
theorem upload_nonpdf_returns_500_witness :
    upload_pdf ("notes.txt") (fun _ => .ok (3, 1000)) =
      .err 500 ("Error processing file: " ++
        httpExceptionStr 400 ("Only PDF files are allowed")) :=
  upload_nonpdf_returns_500 ("notes.txt") (fun _ => .ok (3, 1000)) (by decide)

/-- Embeds the constructor validation of langchain's
`RecursiveCharacterTextSplitter` (external, called by
`PDFProcessor.__init__`, src/src/pdf_processor.py lines 27-31): the only
check it performs is rejecting `chunk_overlap > chunk_size` with a
`ValueError`; nothing validates `chunk_size <= 0`. -/
def textSplitterInit (chunk_size chunk_overlap : Int) : Except String Unit :=
  if chunk_overlap > chunk_size then
    .error ("Got a larger chunk overlap (" ++ toString chunk_overlap ++
      ") than chunk size (" ++ toString chunk_size ++ "), should be smaller.")
  else .ok ()

/-- Configuration held by `PDFProcessor` (src/src/pdf_processor.py lines
17-31). -/
structure PDFProcessor where
  chunk_size : Int
  chunk_overlap : Int
deriving DecidableEq

/-- Embeds `PDFProcessor.__init__`: it stores the parameters and builds
the splitter; the splitter's `ValueError` propagates unwrapped (there is
no `try` in `__init__` and no validation of its own). -/
def pdfProcessorInit (chunk_size chunk_overlap : Int) : Except String PDFProcessor :=
  match textSplitterInit chunk_size chunk_overlap with
  | .error e => .error e
  | .ok _ => .ok ⟨chunk_size, chunk_overlap⟩

/-- Embeds `PDFProcessor.create_documents` (lines 83-111): the external
splitter's `split_text` is the `split` parameter (a function of the
configured sizes and the text); each chunk becomes a `Document` with
`chunk_id` and `chunk_size` added to the caller's metadata. No input
raises here. -/
def create_documents (split : Int → Int → String → List String)
    (p : PDFProcessor) (text : String)
    (metadata : List (String × MetaVal)) : Except String (List Document) :=
  .ok (((split p.chunk_size p.chunk_overlap text).enum).map
    (fun ic => ⟨ic.2, metadata ++
      [(("chunk_id"), .nat ic.1), (("chunk_size"), .nat ic.2.length)]⟩))

/-- Claim C3 counterexample: at `chunk_size = 0`, `overlap = 0` both of
the claim's failure conditions hold (`chunk_size <= 0` and
`overlap >= chunk_size`), yet construction succeeds — no
`InvalidInputError` (nor any error) is raised anywhere in this path. -/
theorem chunk_validation_counterexample :
    (0 : Int) ≤ 0 ∧ (0 : Int) ≥ 0 ∧
    pdfProcessorInit 0 0 = .ok ⟨0, 0⟩ := by
  refine ⟨le_refl 0, le_refl 0, rfl⟩

/-- Claim C3 amended: constructing the chunking operation fails — with the
underlying splitter's `ValueError`, the only validation present — exactly
when `overlap > chunk_size`; `chunk_size <= 0` and `overlap = chunk_size`
are accepted without error. -/
theorem splitter_validation_iff (cs ov : Int) :
    (∃ e, pdfProcessorInit cs ov = .error e) ↔ ov > cs := by
  unfold pdfProcessorInit textSplitterInit
  by_cases h : ov > cs
  · simp [if_pos h, h]
  · simp only [if_neg h]
    constructor
    · rintro ⟨e, he⟩
      cases he
    · intro hc
      exact absurd hc h

/-- One question/answer exchange, as carried in `chat_history`
(src/src/rag_chain.py, src/api.py `ChatRequest`). -/
structure Turn where
  question : String
  answer : String
deriving DecidableEq

/-- Embeds one iteration of the history loop of `chat_with_history`
(src/src/rag_chain.py line 218): the `f"Q: ...\nA: ...\n\n"` piece
appended per prior turn. -/
def turnLine (e : Turn) : String :=
  "Q: " ++ e.question ++ "\nA: " ++ e.answer ++ "\n\n"

/-- The history loop of `chat_with_history` (lines 217-218) as a
recursion: the concatenation of the per-turn pieces in order. -/
def inlineTurns : List Turn → String
  | [] => ""
  | e :: rest => turnLine e ++ inlineTurns rest

/-- Embeds the Python slice `chat_history[-3:]` (line 217): the last
`min(n, 3)` elements. -/
def lastThreeTurns (h : List Turn) : List Turn := h.drop (h.length - 3)

/-- Embeds the construction of `context_question` in `chat_with_history`
(lines 214-221): the question alone when no history is supplied, else the
header, the inlined last-3 turns, and the current question. This is the
string then passed to `self.query(...)` at line 224, i.e. the string the
retrieval step embeds and queries with. -/
def chatRetrievalInput (question : String) (history : List Turn) : String :=
  if history.isEmpty then question
  else "Riwayat percakapan:\n" ++ inlineTurns (lastThreeTurns history) ++
    ("Pertanyaan saat ini: " ++ question)

/-- Embeds `_create_prompt_template` (lines 67-83) applied to concrete
context and question: the fixed template with the two slots filled, as
`PromptTemplate.format` does. -/
def promptTemplate (context question : String) : String :=
  "\n        Gunakan konteks berikut untuk menjawab pertanyaan. Jika Anda tidak tahu jawabannya berdasarkan konteks yang diberikan, katakan bahwa Anda tidak tahu, jangan mencoba membuat jawaban.\n\n        Konteks:\n        "
  ++ context ++
  "\n\n        Pertanyaan: " ++ question ++
  "\n        \n        Jawaban yang detail dan informatif:\n        "

/-- Models the langchain stuff-chain's assembly of retrieved documents
into the context slot: page contents joined by blank lines. -/
def joinDocs (docs : List Document) : String :=
  String.intercalate ("\n\n") (docs.map Document.page_content)

/-- Return shape of `RAGChain.query` (lines 129-133). -/
structure QueryOut where
  answer : String
  source_documents : List Document
  question : String
deriving DecidableEq

/-- Embeds `RAGChain.query` (lines 108-136) over the `RetrievalQA` stuff
chain it drives: the retriever (the vector store's engine, the `search`
parameter) fetches documents for the question string, the template is
filled with them and the same string, and the hosted model (`llm`) is
invoked once on the resulting prompt. An uninitialized chain raises, and
the catch-all wraps the message. -/
def query (search : List Document → String → Nat → List Document)
    (llm : String → String) (st : VectorStore)
    (question : String) (k : Nat) : Except String QueryOut :=
  match st.vector_store with
  | none => .error ("Error querying RAG system: RAG chain not initialized")
  | some docs =>
    let retrieved := search docs question k
    .ok ⟨llm (promptTemplate (joinDocs retrieved) question), retrieved, question⟩

/-- Return shape of `RAGChain.chat_with_history` (lines 235-239). -/
structure ChatOut where
  answer : String
  source_documents : List Document
  chat_history : List Turn
deriving DecidableEq

/-- Embeds `RAGChain.chat_with_history` (lines 200-242): builds the
history-augmented question, runs `query` on it with the default `k = 4`,
and returns the answer, the sources, and the history with the new turn
appended. -/
def chat_with_history (search : List Document → String → Nat → List Document)
    (llm : String → String) (st : VectorStore)
    (question : String) (history : List Turn) : Except String ChatOut :=
  match query search llm st (chatRetrievalInput question history) 4 with
  | .error e => .error ("Error in chat with history: " ++ e)
  | .ok resp => .ok ⟨resp.answer, resp.source_documents,
      history ++ [⟨question, resp.answer⟩]⟩

def constLLM : String → String := fun _ => "jawaban"

def t1 : Turn := ⟨("q1"), ("a1")⟩

theorem str_append_assoc (a b c : String) : a ++ b ++ c = a ++ (b ++ c) := by
  cases a with | mk la =>
  cases b with | mk lb =>
  cases c with | mk lc =>
  exact congrArg String.mk (List.append_assoc la lb lc)

theorem str_length_append (a b : String) : (a ++ b).length = a.length + b.length := by
  cases a with | mk la =>
  cases b with | mk lb =>
  exact List.length_append la lb

theorem inlineTurns_contains (l : List Turn) (e : Turn) (he : e ∈ l) :
    ∃ p s : String, p ++ (e.question ++ s) = inlineTurns l := by
  induction l with
  | nil => cases he
  | cons x rest ih =>
    rcases List.mem_cons.mp he with rfl | hm
    · refine ⟨("Q: "), "\nA: " ++ (e.answer ++ ("\n\n" ++ inlineTurns rest)), ?_⟩
      simp [inlineTurns, turnLine, str_append_assoc]
    · obtain ⟨p, s, hps⟩ := ih hm
      refine ⟨turnLine x ++ p, s, ?_⟩
      simp [inlineTurns, str_append_assoc, hps]

theorem lastThreeTurns_most_recent (h : List Turn) :
    lastThreeTurns h = (h.reverse.take 3).reverse := by
  have h1 : h.take (h.length - 3) ++ lastThreeTurns h = h := List.take_append_drop _ _
  have h2 : (h.reverse.drop 3).reverse ++ (h.reverse.take 3).reverse = h := by
    rw [← List.reverse_append, List.take_append_drop, List.reverse_reverse]
  have hlen : (h.take (h.length - 3)).length = ((h.reverse.drop 3).reverse).length := by
    simp only [List.length_take, List.length_reverse, List.length_drop]
    omega
  exact (List.append_inj (h1.trans h2.symm) hlen).2

/-- Claim C5 counterexample: with one prior turn, the string handed to the
retrieval step differs from the current question — the retrieval vector is
not the embedding of the question alone. -/
theorem chat_retrieval_not_question_alone :
    chatRetrievalInput ("q2") [t1] ≠ ("q2") := by decide

/-- Claim C5 amended: when prior turns are supplied, the string that the
chat flow embeds and retrieves with is the history-augmented question —
it strictly extends the current question (which remains a suffix) and
contains each of the inlined last-3 turns' questions — so prior turns are
folded into the retrieval query itself, not only into the prompting
step. -/
theorem chat_retrieval_query_includes_history
    (search : List Document → String → Nat → List Document)
    (llm : String → String) (st : VectorStore) (docs : List Document)
    (q : String) (h : List Turn)
    (hst : st.vector_store = some docs) (hne : h ≠ []) :
    (∃ out, chat_with_history search llm st q h = .ok out ∧
      out.source_documents = search docs (chatRetrievalInput q h) 4) ∧
    chatRetrievalInput q h ≠ q ∧
    (∃ p, p ++ q = chatRetrievalInput q h) ∧
    (∀ e ∈ lastThreeTurns h, ∃ p s, p ++ (e.question ++ s) = chatRetrievalInput q h) := by
  have hEmpty : h.isEmpty = false := by
    cases h with
    | nil => exact absurd rfl hne
    | cons a t => rfl
  have hI : chatRetrievalInput q h =
      "Riwayat percakapan:\n" ++ (inlineTurns (lastThreeTurns h) ++
        ("Pertanyaan saat ini: " ++ q)) := by
    simp [chatRetrievalInput, hEmpty, str_append_assoc]
  refine ⟨?_, ?_, ?_, ?_⟩
  · exact ⟨⟨llm (promptTemplate (joinDocs (search docs (chatRetrievalInput q h) 4))
        (chatRetrievalInput q h)), search docs (chatRetrievalInput q h) 4,
        h ++ [⟨q, llm (promptTemplate (joinDocs (search docs (chatRetrievalInput q h) 4))
          (chatRetrievalInput q h))⟩]⟩,
      by simp [chat_with_history, query, hst], rfl⟩
  · intro heq
    rw [hI] at heq
    have hlen := congrArg String.length heq
    rw [str_length_append, str_length_append, str_length_append] at hlen
    have hA : ("Riwayat percakapan:\n" : String).length = 20 := rfl
    have hP : ("Pertanyaan saat ini: " : String).length = 21 := rfl
    rw [hA, hP] at hlen
    omega
  · refine ⟨"Riwayat percakapan:\n" ++ (inlineTurns (lastThreeTurns h) ++
      ("Pertanyaan saat ini: ")), ?_⟩
    rw [hI]
    simp [str_append_assoc]
  · intro e he
    obtain ⟨p, s, hps⟩ := inlineTurns_contains (lastThreeTurns h) e he
    refine ⟨"Riwayat percakapan:\n" ++ p, s ++ ("Pertanyaan saat ini: " ++ q), ?_⟩
    rw [hI, ← hps]
    simp [str_append_assoc]

/-- Witness for the amended C5 at a concrete store, question and one-turn
history. -/
theorem chat_retrieval_query_includes_history_witness :
    (∃ out, chat_with_history takeSearch constLLM faissSt ("q2") [t1] = .ok out ∧
      out.source_documents = takeSearch [doc0] (chatRetrievalInput ("q2") [t1]) 4) ∧
    chatRetrievalInput ("q2") [t1] ≠ ("q2") ∧
    (∃ p, p ++ ("q2") = chatRetrievalInput ("q2") [t1]) ∧
    (∀ e ∈ lastThreeTurns [t1], ∃ p s, p ++ (e.question ++ s) =
      chatRetrievalInput ("q2") [t1]) :=
  chat_retrieval_query_includes_history takeSearch constLLM faissSt [doc0]
    ("q2") [t1] rfl (by decide)

/-- Claim C6: the turns inlined into the question slot of the generation
prompt are exactly the most recent `min(n, 3)` of the supplied history
(`chat_history[-3:]`): they form the length-`min(n, 3)` tail of the
history, the older turns being the dropped front. -/
theorem chat_inlines_most_recent_three
    (search : List Document → String → Nat → List Document)
    (llm : String → String) (st : VectorStore) (q : String) (h : List Turn)
    (docs : List Document) (hst : st.vector_store = some docs) :
    (∃ out, chat_with_history search llm st q h = .ok out ∧
      out.answer = llm (promptTemplate
        (joinDocs (search docs (chatRetrievalInput q h) 4))
        (chatRetrievalInput q h)) ∧
      out.source_documents = search docs (chatRetrievalInput q h) 4) ∧
    lastThreeTurns h = (h.reverse.take 3).reverse ∧
    (lastThreeTurns h).length = min h.length 3 ∧
    h.take (h.length - 3) ++ lastThreeTurns h = h := by
  refine ⟨?_, lastThreeTurns_most_recent h, ?_, List.take_append_drop _ _⟩
  · exact ⟨⟨llm (promptTemplate (joinDocs (search docs (chatRetrievalInput q h) 4))
        (chatRetrievalInput q h)), search docs (chatRetrievalInput q h) 4,
        h ++ [⟨q, llm (promptTemplate (joinDocs (search docs (chatRetrievalInput q h) 4))
          (chatRetrievalInput q h))⟩]⟩,
      by simp [chat_with_history, query, hst], rfl, rfl⟩
  · simp only [lastThreeTurns, List.length_drop]
    omega

/-- Witness for C6 at a concrete store and one-turn history. -/
theorem chat_inlines_most_recent_three_witness :
    (∃ out, chat_with_history takeSearch constLLM faissSt ("q2") [t1] = .ok out ∧
      out.answer = constLLM (promptTemplate
        (joinDocs (takeSearch [doc0] (chatRetrievalInput ("q2") [t1]) 4))
        (chatRetrievalInput ("q2") [t1])) ∧
      out.source_documents = takeSearch [doc0] (chatRetrievalInput ("q2") [t1]) 4) ∧
    lastThreeTurns [t1] = ([t1].reverse.take 3).reverse ∧
    (lastThreeTurns [t1]).length = min [t1].length 3 ∧
    [t1].take ([t1].length - 3) ++ lastThreeTurns [t1] = [t1] :=
  chat_inlines_most_recent_three takeSearch constLLM faissSt ("q2") [t1] [doc0] rfl

/-- Claim C7: a successful chat returns as updated history exactly the
supplied prior turns, unchanged and in order, with the single new
question/answer turn appended at the end. -/
theorem chat_appends_turn
    (search : List Document → String → Nat → List Document)
    (llm : String → String) (st : VectorStore) (q : String)
    (h : List Turn) (out : ChatOut)
    (hok : chat_with_history search llm st q h = .ok out) :
    out.chat_history = h ++ [⟨q, out.answer⟩] := by
  cases hvs : st.vector_store with
  | none => simp [chat_with_history, query, hvs] at hok
  | some docs =>
    simp only [chat_with_history, query, hvs] at hok
    injection hok with h2
    subst h2
    rfl

def out0 : ChatOut := ⟨("jawaban"), [doc0], [⟨("q"), ("jawaban")⟩]⟩

/-- Witness for C7 at a concrete store, question, and empty prior
history. -/
theorem chat_appends_turn_witness :
    out0.chat_history = [] ++ [⟨("q"), out0.answer⟩] :=
  chat_appends_turn takeSearch constLLM faissSt ("q") [] out0 rfl

/-- Claim C10: counting documents on a store that has never been created
(or was cleared, which leaves the same `None`) returns `0` rather than
raising, whatever the backend tag. -/
theorem count_uninitialized_zero (st : VectorStore)
    (h : st.vector_store = none) : get_document_count st = 0 := by
  simp only [get_document_count, h]

/-- Witness for C10 at both store variants. -/
theorem count_uninitialized_zero_witness :
    get_document_count ⟨("faiss"), none⟩ = 0 ∧
    get_document_count ⟨("chroma"), none⟩ = 0 :=
  ⟨count_uninitialized_zero _ rfl, count_uninitialized_zero _ rfl⟩

end RagPdf
